import Mathlib

/-!
Shallow embedding of the ypbank_parser transaction codec crate
(src/types.rs, src/error.rs, src/bin_format.rs, src/csv_format.rs,
src/text_format.rs, src/utils.rs) together with theorems checking the
natural-language specification against it.

Byte streams are modelled as lists of natural numbers (each element a byte
value), Rust strings as lists of characters, and every fallible source
operation as an Except value.  Machine-integer wrapping is made explicit
with percent 2 to the 32 where the source performs u32 arithmetic.
-/

set_option maxRecDepth 100000

namespace YPBank

/-- The TxType enumeration of src/types.rs.  Declaration order matters: the
source derives Default with Unknown as the first (discriminant 0) variant. -/
inductive TxType where
  | Unknown
  | Deposit
  | Transfer
  | Withdrawal
deriving DecidableEq, Repr

/-- The TxStatus enumeration of src/types.rs, Unknown first as in the source. -/
inductive TxStatus where
  | Unknown
  | Success
  | Failure
  | Pending
deriving DecidableEq, Repr

/-- The Transaction record of src/types.rs.  The u64 fields are Nats that the
codecs only ever populate with values below 2 to the 64; the description is
the character list of the Rust String. -/
structure Transaction where
  id : Nat
  type : TxType
  from_user : Nat
  to_user : Nat
  amount : Nat
  timestamp : Nat
  status : TxStatus
  description : List Char
deriving DecidableEq, Repr

/-- Big-endian value of a byte list, models u32/u64::from_be_bytes. -/
def beVal (bs : List Nat) : Nat := bs.foldl (fun a b => a * 256 + b) 0

/-- The 8 big-endian bytes of a u64, models u64::to_be_bytes. -/
def u64be (n : Nat) : List Nat :=
  [n / 2 ^ 56 % 256, n / 2 ^ 48 % 256, n / 2 ^ 40 % 256, n / 2 ^ 32 % 256,
   n / 2 ^ 24 % 256, n / 2 ^ 16 % 256, n / 2 ^ 8 % 256, n % 256]

/-- The 4 big-endian bytes of a u32, models u32::to_be_bytes (values at or
above 2 to the 32 are truncated to their low 32 bits, as the Rust casts do). -/
def u32be (n : Nat) : List Nat :=
  [n / 2 ^ 24 % 256, n / 2 ^ 16 % 256, n / 2 ^ 8 % 256, n % 256]

/-- UTF-8 bytes of one unicode scalar value (what Rust String stores). -/
def utf8EncodeChar (c : Char) : List Nat :=
  let n := c.toNat
  if n < 0x80 then [n]
  else if n < 0x800 then [0xC0 + n / 64, 0x80 + n % 64]
  else if n < 0x10000 then [0xE0 + n / 4096, 0x80 + n / 64 % 64, 0x80 + n % 64]
  else [0xF0 + n / 262144, 0x80 + n / 4096 % 64, 0x80 + n / 64 % 64, 0x80 + n % 64]

/-- UTF-8 byte list of a Rust string. -/
def utf8Encode (s : List Char) : List Nat := (s.map utf8EncodeChar).flatten

/-- Strict UTF-8 decoding of a byte list; models String::from_utf8, which
rejects overlong encodings, surrogate codepoints and codepoints above
0x10FFFF. -/
def utf8Decode : List Nat → Option (List Char)
  | [] => some []
  | b :: rest =>
    if b < 0x80 then
      (utf8Decode rest).map (fun cs => Char.ofNat b :: cs)
    else if b < 0xC2 then none
    else if b < 0xE0 then
      match rest with
      | b2 :: rest2 =>
        if 0x80 ≤ b2 ∧ b2 < 0xC0 then
          (utf8Decode rest2).map (fun cs => Char.ofNat ((b - 0xC0) * 64 + (b2 - 0x80)) :: cs)
        else none
      | [] => none
    else if b < 0xF0 then
      match rest with
      | b2 :: b3 :: rest3 =>
        if 0x80 ≤ b2 ∧ b2 < 0xC0 ∧ 0x80 ≤ b3 ∧ b3 < 0xC0 then
          let cp := (b - 0xE0) * 4096 + (b2 - 0x80) * 64 + (b3 - 0x80)
          if 0x800 ≤ cp ∧ ¬(0xD800 ≤ cp ∧ cp < 0xE000) then
            (utf8Decode rest3).map (fun cs => Char.ofNat cp :: cs)
          else none
        else none
      | _ => none
    else if b < 0xF5 then
      match rest with
      | b2 :: b3 :: b4 :: rest4 =>
        if 0x80 ≤ b2 ∧ b2 < 0xC0 ∧ 0x80 ≤ b3 ∧ b3 < 0xC0 ∧ 0x80 ≤ b4 ∧ b4 < 0xC0 then
          let cp := (b - 0xF0) * 262144 + (b2 - 0x80) * 4096 + (b3 - 0x80) * 64 + (b4 - 0x80)
          if 0x10000 ≤ cp ∧ cp < 0x110000 then
            (utf8Decode rest4).map (fun cs => Char.ofNat cp :: cs)
          else none
        else none
      | _ => none
    else none

/-- The error kinds of std::io::Error that the binary decoder distinguishes. -/
inductive IoKind where
  | unexpectedEof
  | invalidData
deriving DecidableEq, Repr

/-- A std::io::Error as the binary decoder observes it: kind plus the string
its Display implementation prints. -/
structure IoErr where
  kind : IoKind
  msg : String
deriving DecidableEq, Repr

/-- ParseError of src/error.rs. -/
inductive ParseError where
  | IOError (msg : String)
  | InvalidFormat (msg : String)
deriving DecidableEq, Repr

/-- The From impl for std::io::Error in src/error.rs: every io::Error that
reaches a question-mark operator becomes IOError of its display string. -/
def ioErrToParse (e : IoErr) : ParseError := .IOError e.msg

/-- The io::Error produced by read_exact at end of stream. -/
def eofErr : IoErr := ⟨.unexpectedEof, "failed to fill whole buffer"⟩

/-- std::io::Read::read_exact over an in-memory byte list: returns the first
n bytes and the remainder, or UnexpectedEof when fewer than n bytes remain
(regardless of how many of them could be read). -/
def readExact (n : Nat) (s : List Nat) : Except IoErr (List Nat × List Nat) :=
  if n ≤ s.length then .ok (s.take n, s.drop n) else .error eofErr

/-- read_magic of src/bin_format.rs. -/
def read_magic (s : List Nat) : Except IoErr (List Nat × List Nat) := readExact 4 s

/-- read_u32 of src/bin_format.rs. -/
def read_u32 (s : List Nat) : Except IoErr (Nat × List Nat) :=
  match readExact 4 s with
  | .error e => .error e
  | .ok (b, r) => .ok (beVal b, r)

/-- read_u64 of src/bin_format.rs. -/
def read_u64 (s : List Nat) : Except IoErr (Nat × List Nat) :=
  match readExact 8 s with
  | .error e => .error e
  | .ok (b, r) => .ok (beVal b, r)

/-- read_string of src/bin_format.rs: read size bytes and validate UTF-8. -/
def read_string (size : Nat) (s : List Nat) : Except IoErr (List Char × List Nat) :=
  match readExact size s with
  | .error e => .error e
  | .ok (b, r) =>
    match utf8Decode b with
    | some cs => .ok (cs, r)
    | none => .error ⟨.invalidData, "Invalid UTF-8"⟩

/-- read_tx_type of src/bin_format.rs: one byte, only 0, 1, 2 accepted. -/
def read_tx_type : List Nat → Except IoErr (TxType × List Nat)
  | [] => .error eofErr
  | b :: rest =>
    if b = 0 then .ok (.Deposit, rest)
    else if b = 1 then .ok (.Transfer, rest)
    else if b = 2 then .ok (.Withdrawal, rest)
    else .error ⟨.invalidData, "Invalid TxType"⟩

/-- read_tx_status of src/bin_format.rs (its error message really says
TxType in the source). -/
def read_tx_status : List Nat → Except IoErr (TxStatus × List Nat)
  | [] => .error eofErr
  | b :: rest =>
    if b = 0 then .ok (.Success, rest)
    else if b = 1 then .ok (.Failure, rest)
    else if b = 2 then .ok (.Pending, rest)
    else .error ⟨.invalidData, "unexpected TxType"⟩

/-- The MAGIC constant of src/bin_format.rs. -/
def MAGIC : List Nat := [0x59, 0x50, 0x42, 0x4E]

/-- Header::read of src/bin_format.rs: magic check then big-endian size. -/
def header_read (s : List Nat) : Except IoErr (Nat × List Nat) :=
  match read_magic s with
  | .error e => .error e
  | .ok (m, r) =>
    if m ≠ MAGIC then .error ⟨.invalidData, "invalid magic"⟩
    else
      match read_u32 r with
      | .error e => .error e
      | .ok (record_size, r2) => .ok (record_size, r2)

/-- MIN_RECORD_SIZE of src/bin_format.rs. -/
def MIN_RECORD_SIZE : Nat := 46

/-- read_tx of src/bin_format.rs: the fixed body fields in order, the
record-size check against 46 + desc_len (u32 addition, hence the mod), then
the description bytes.  Every io::Error is converted by the blanket From
impl into ParseError.IOError. -/
def read_tx (s : List Nat) (full_record_size : Nat) : Except ParseError Transaction :=
  match read_u64 s with
  | .error e => .error (ioErrToParse e)
  | .ok (id, s1) =>
  match read_tx_type s1 with
  | .error e => .error (ioErrToParse e)
  | .ok (ty, s2) =>
  match read_u64 s2 with
  | .error e => .error (ioErrToParse e)
  | .ok (from_user, s3) =>
  match read_u64 s3 with
  | .error e => .error (ioErrToParse e)
  | .ok (to_user, s4) =>
  match read_u64 s4 with
  | .error e => .error (ioErrToParse e)
  | .ok (amount, s5) =>
  match read_u64 s5 with
  | .error e => .error (ioErrToParse e)
  | .ok (timestamp, s6) =>
  match read_tx_status s6 with
  | .error e => .error (ioErrToParse e)
  | .ok (status, s7) =>
  match read_u32 s7 with
  | .error e => .error (ioErrToParse e)
  | .ok (desc_len, s8) =>
    if full_record_size ≠ (MIN_RECORD_SIZE + desc_len) % 2 ^ 32 then
      .error (.InvalidFormat "mailformed record. record size mismatch")
    else
      match read_string desc_len s8 with
      | .error e => .error (ioErrToParse e)
      | .ok (description, _) =>
        .ok ⟨id, ty, from_user, to_user, amount, timestamp, status, description⟩

/-- The loop of parse_from_bin of src/bin_format.rs.  The fuel argument only
bounds the number of loop iterations; the top-level entry supplies one more
unit of fuel than there are input bytes, which can never be exhausted since
every iteration that recurses consumes at least the 8 header bytes. -/
def parse_from_bin_loop : Nat → List Transaction → List Nat → Except ParseError (List Transaction)
  | 0, acc, _ => .ok acc
  | fuel + 1, acc, s =>
    match header_read s with
    | .error e =>
      if e.kind = .unexpectedEof then .ok acc
      else .error (.InvalidFormat e.msg)
    | .ok (record_size, s1) =>
      if record_size < MIN_RECORD_SIZE then
        .error (.InvalidFormat "mailformed record. record size too small")
      else
        match readExact record_size s1 with
        | .error e => .error (ioErrToParse e)
        | .ok (body, s2) =>
          match read_tx body record_size with
          | .error e => .error e
          | .ok tx => parse_from_bin_loop fuel (acc ++ [tx]) s2

/-- parse_from_bin of src/bin_format.rs. -/
def parse_from_bin (s : List Nat) : Except ParseError (List Transaction) :=
  parse_from_bin_loop (s.length + 1) [] s

/-- The Rust cast (tx.r#type as u8): the discriminant in declaration order,
with Unknown first, so Deposit is 1, Transfer 2, Withdrawal 3. -/
def txTypeCode : TxType → Nat
  | .Unknown => 0
  | .Deposit => 1
  | .Transfer => 2
  | .Withdrawal => 3

/-- The Rust cast (tx.status as u8), Unknown first. -/
def txStatusCode : TxStatus → Nat
  | .Unknown => 0
  | .Success => 1
  | .Failure => 2
  | .Pending => 3

/-- sizeof_tx of src/bin_format.rs: byte sizes of the fixed fields plus the
byte length of the description. -/
def sizeof_tx (tx : Transaction) : Nat :=
  8 + 1 + 8 + 8 + 8 + 8 + 1 + (utf8Encode tx.description).length

/-- calculate_size of src/bin_format.rs: sizeof_tx plus the 4-byte DESC_LEN. -/
def calculate_size (tx : Transaction) : Nat := sizeof_tx tx + 4

/-- Header::dump of src/bin_format.rs: magic then big-endian record size. -/
def header_dump (record_size : Nat) : List Nat := MAGIC ++ u32be record_size

/-- dump_tx of src/bin_format.rs: the record body bytes. -/
def dump_tx (tx : Transaction) : List Nat :=
  u64be tx.id ++ [txTypeCode tx.type] ++ u64be tx.from_user ++ u64be tx.to_user ++
  u64be tx.amount ++ u64be tx.timestamp ++ [txStatusCode tx.status] ++
  u32be (utf8Encode tx.description).length ++ utf8Encode tx.description

/-- tx_to_bin of src/bin_format.rs: header then body. -/
def tx_to_bin (tx : Transaction) : List Nat :=
  header_dump (calculate_size tx) ++ dump_tx tx

/-- dump_as_bin of src/bin_format.rs: the flat concatenation of the records. -/
def dump_as_bin (txs : List Transaction) : List Nat := (txs.map tx_to_bin).flatten

/-- The characters with the unicode White_Space property, the set Rust
str::trim removes at both ends. -/
def rustWhitespaceChars : List Char :=
  [' ', '\t', '\n', '\u000B', '\u000C', '\r', '\u0085', ' ', ' ',
   ' ', ' ', ' ', ' ', ' ', ' ', ' ',
   ' ', ' ', ' ', ' ', ' ', ' ', ' ',
   ' ', '　']

/-- char::is_whitespace of Rust. -/
def isRustWhitespace (c : Char) : Bool := rustWhitespaceChars.contains c

/-- str::trim of Rust: strip whitespace from both ends. -/
def rustTrim (s : List Char) : List Char :=
  ((s.dropWhile isRustWhitespace).reverse.dropWhile isRustWhitespace).reverse

/-- str::split of Rust on a separator character: n separators yield n plus
one parts, empty parts included. -/
def splitCh (sep : Char) : List Char → List (List Char)
  | [] => [[]]
  | a :: rest =>
    match splitCh sep rest with
    | [] => [[]]
    | p :: ps => if a = sep then [] :: p :: ps else (a :: p) :: ps

/-- Strip one trailing carriage return, as BufRead::lines does per line. -/
def stripCr (l : List Char) : List Char :=
  if l.getLast? = some '\r' then l.dropLast else l

/-- BufRead::lines over an in-memory text: split on the newline character,
drop the final empty segment produced by a trailing newline, strip one
trailing carriage return per line; empty input yields no lines. -/
def linesOf (s : List Char) : List (List Char) :=
  if s = [] then []
  else
    let parts := splitCh '\n' s
    (if parts.getLast? = some [] then parts.dropLast else parts).map stripCr

/-- str::parse::<u64> of Rust: an optional leading plus sign then at least
one ascii digit, value below 2 to the 64; the error carries the display
string of the ParseIntError, already routed through the From impl of
src/error.rs that turns it into InvalidFormat. -/
def parse_u64 (s : List Char) : Except ParseError Nat :=
  if s = [] then .error (.InvalidFormat "cannot parse integer from empty string")
  else
    let digits := if s.head? = some '+' then s.tail else s
    if digits = [] then .error (.InvalidFormat "cannot parse integer from empty string")
    else if digits.all Char.isDigit then
      let v := digits.foldl (fun a c => a * 10 + (c.toNat - 48)) 0
      if v < 2 ^ 64 then .ok v
      else .error (.InvalidFormat "number too large to fit in target type")
    else .error (.InvalidFormat "invalid digit found in string")

/-- The FromStr impl for TxType in src/text_format.rs: only the three
upper-case names are accepted; Unknown has no name. -/
def txTypeFromStr (s : List Char) : Except ParseError TxType :=
  if s = "DEPOSIT".toList then .ok .Deposit
  else if s = "TRANSFER".toList then .ok .Transfer
  else if s = "WITHDRAWAL".toList then .ok .Withdrawal
  else .error (.InvalidFormat "unknown tx type")

/-- The FromStr impl for TxStatus in src/text_format.rs. -/
def txStatusFromStr (s : List Char) : Except ParseError TxStatus :=
  if s = "SUCCESS".toList then .ok .Success
  else if s = "FAILURE".toList then .ok .Failure
  else if s = "PENDING".toList then .ok .Pending
  else .error (.InvalidFormat "unknown tx status")

/-- parse_quoted_field of src/utils.rs: trim, then strip one surrounding
pair of double quotes when the trimmed value starts and ends with a quote
and has length at least 2. -/
def parse_quoted_field (s : List Char) : List Char :=
  let t := rustTrim s
  if t.head? = some '"' ∧ t.getLast? = some '"' ∧ 2 ≤ t.length then
    (t.drop 1).dropLast
  else t

/-- The parsed_fields HashMap of TxWrapper in src/text_format.rs, as an
association list; apply_field only ever inserts absent keys, so insertion
order is immaterial to every lookup. -/
abbrev FieldMap : Type := List (List Char × List Char)

/-- HashMap::contains_key. -/
def containsKey (m : FieldMap) (k : List Char) : Bool :=
  m.any (fun p => p.1 == k)

/-- HashMap indexing as build uses it.  Indexing a missing key panics in
Rust; build only runs behind an is_valid check so every key it looks up is
present, and the empty default here is never observable. -/
def mapGet (m : FieldMap) (k : List Char) : List Char :=
  match m.find? (fun p => p.1 == k) with
  | some p => p.2
  | none => []

/-- REQUIRED_FIELDS of src/text_format.rs. -/
def REQUIRED_FIELDS : List (List Char) :=
  ["TX_ID".toList, "TX_TYPE".toList, "FROM_USER_ID".toList, "TO_USER_ID".toList,
   "AMOUNT".toList, "TIMESTAMP".toList, "STATUS".toList, "DESCRIPTION".toList]

/-- TxWrapper::apply_field of src/text_format.rs: duplicate keys are an
error, any other key is inserted, recognized or not. -/
def apply_field (m : FieldMap) (name value : List Char) : Except ParseError FieldMap :=
  if containsKey m name then
    .error (.InvalidFormat ("duplicate field " ++ String.mk name))
  else .ok (m ++ [(name, value)])

/-- The Validator impl for TxWrapper: all eight required keys present. -/
def is_valid (m : FieldMap) : Bool :=
  REQUIRED_FIELDS.all (fun k => containsKey m k)

/-- TxWrapper::build of src/text_format.rs. -/
def build (m : FieldMap) : Except ParseError Transaction :=
  match parse_u64 (mapGet m "TX_ID".toList) with
  | .error e => .error e
  | .ok id =>
  match txTypeFromStr (mapGet m "TX_TYPE".toList) with
  | .error e => .error e
  | .ok ty =>
  match parse_u64 (mapGet m "FROM_USER_ID".toList) with
  | .error e => .error e
  | .ok from_user =>
  match parse_u64 (mapGet m "TO_USER_ID".toList) with
  | .error e => .error e
  | .ok to_user =>
  match parse_u64 (mapGet m "AMOUNT".toList) with
  | .error e => .error e
  | .ok amount =>
  match parse_u64 (mapGet m "TIMESTAMP".toList) with
  | .error e => .error e
  | .ok timestamp =>
  match txStatusFromStr (mapGet m "STATUS".toList) with
  | .error e => .error e
  | .ok status =>
    .ok ⟨id, ty, from_user, to_user, amount, timestamp, status,
         parse_quoted_field (mapGet m "DESCRIPTION".toList)⟩

/-- The loop of parse_lines of src/text_format.rs.  Note two source
behaviours this preserves exactly: a blank line with an incomplete wrapper
resets the wrapper without error, and a blank line with a complete wrapper
pushes the built record but does NOT reset the wrapper. -/
def parse_lines_loop : List Transaction → FieldMap → List (List Char) →
    Except ParseError (List Transaction)
  | acc, current_tx, [] =>
    if is_valid current_tx then
      match build current_tx with
      | .error e => .error e
      | .ok tx => .ok (acc ++ [tx])
    else .ok acc
  | acc, current_tx, line :: rest =>
    let l := rustTrim line
    if l = [] then
      if is_valid current_tx = false then parse_lines_loop acc [] rest
      else
        match build current_tx with
        | .error e => .error e
        | .ok tx => parse_lines_loop (acc ++ [tx]) current_tx rest
    else
      match (splitCh ':' l).map rustTrim with
      | [name, value] =>
        match apply_field current_tx name value with
        | .error e => .error e
        | .ok m2 => parse_lines_loop acc m2 rest
      | _ => .error (.InvalidFormat "invalid field format")

/-- parse_lines of src/text_format.rs. -/
def parse_lines (lines : List (List Char)) : Except ParseError (List Transaction) :=
  parse_lines_loop [] [] lines

/-- parse_from_text of src/text_format.rs over an in-memory text. -/
def parse_from_text (s : List Char) : Except ParseError (List Transaction) :=
  parse_lines (linesOf s)

/-- The loop of parse_csv_line of src/csv_format.rs: quote-aware splitting
on commas, a doubled quote inside quotes is one literal quote, each
finished field is trimmed.  The fuel argument only bounds the number of
iterations; parse_csv_line supplies one more unit than the line has
characters, which can never be exhausted since every iteration consumes at
least one character. -/
def parse_csv_line_loop : Nat → List (List Char) → List Char → Bool → List Char →
    Except ParseError (List (List Char))
  | 0, acc, _, _, _ => .ok acc
  | fuel + 1, acc, current, in_quotes, l =>
    match l with
    | [] =>
      if in_quotes then .error (.InvalidFormat "unclosed quotes in CSV line")
      else .ok (acc ++ [rustTrim current])
    | '"' :: rest =>
      if in_quotes ∧ rest.head? = some '"' then
        parse_csv_line_loop fuel acc (current ++ ['"']) in_quotes rest.tail
      else parse_csv_line_loop fuel acc current (!in_quotes) rest
    | c :: rest =>
      if c = ',' ∧ in_quotes = false then
        parse_csv_line_loop fuel (acc ++ [rustTrim current]) [] in_quotes rest
      else parse_csv_line_loop fuel acc (current ++ [c]) in_quotes rest

/-- parse_csv_line of src/csv_format.rs. -/
def parse_csv_line (line : List Char) : Except ParseError (List (List Char)) :=
  parse_csv_line_loop (line.length + 1) [] [] false line

/-- EXPECTED_HEADER of src/csv_format.rs. -/
def EXPECTED_HEADER : List (List Char) :=
  ["TX_ID".toList, "TX_TYPE".toList, "FROM_USER_ID".toList, "TO_USER_ID".toList,
   "AMOUNT".toList, "TIMESTAMP".toList, "STATUS".toList, "DESCRIPTION".toList]

/-- parse_header of src/csv_format.rs: skip blank lines, tokenize the first
non-blank line; it also returns the lines the shared iterator has not yet
consumed. -/
def parse_header_split : List (List Char) →
    Except ParseError (List (List Char) × List (List Char))
  | [] => .error (.InvalidFormat "invalid header")
  | line :: rest =>
    let trimmed := rustTrim line
    if trimmed = [] then parse_header_split rest
    else
      match parse_csv_line trimmed with
      | .error e => .error e
      | .ok h => .ok (h, rest)

/-- parse_transaction of src/csv_format.rs.  Field indexing happens behind
the length-8 check, so the empty defaults are never observable. -/
def parse_transaction (tx : List Char) : Except ParseError Transaction :=
  match parse_csv_line tx with
  | .error e => .error e
  | .ok values =>
    if values.length ≠ EXPECTED_HEADER.length then
      .error (.InvalidFormat ("invalid fields count: " ++ Nat.repr values.length))
    else
      match parse_u64 (values.getD 0 []) with
      | .error e => .error e
      | .ok id =>
      match txTypeFromStr (values.getD 1 []) with
      | .error e => .error e
      | .ok ty =>
      match parse_u64 (values.getD 2 []) with
      | .error e => .error e
      | .ok from_user =>
      match parse_u64 (values.getD 3 []) with
      | .error e => .error e
      | .ok to_user =>
      match parse_u64 (values.getD 4 []) with
      | .error e => .error e
      | .ok amount =>
      match parse_u64 (values.getD 5 []) with
      | .error e => .error e
      | .ok timestamp =>
      match txStatusFromStr (values.getD 6 []) with
      | .error e => .error e
      | .ok status =>
        .ok ⟨id, ty, from_user, to_user, amount, timestamp, status, values.getD 7 []⟩

/-- The loop of parse_transactions of src/csv_format.rs. -/
def parse_transactions_loop : List Transaction → List (List Char) →
    Except ParseError (List Transaction)
  | acc, [] => .ok acc
  | acc, line :: rest =>
    let trimmed := rustTrim line
    if trimmed = [] then parse_transactions_loop acc rest
    else
      match parse_transaction trimmed with
      | .error e => .error e
      | .ok tx => parse_transactions_loop (acc ++ [tx]) rest

/-- parse_from_csv of src/csv_format.rs: header line, header equality
check, then one record per non-blank line. -/
def parse_from_csv (s : List Char) : Except ParseError (List Transaction) :=
  match parse_header_split (linesOf s) with
  | .error e => .error e
  | .ok (h, rest) =>
    if h == EXPECTED_HEADER then parse_transactions_loop [] rest
    else .error (.InvalidFormat "invalid header")

/-! Concrete values used by several theorems below. -/

/-- The transaction of the test_dump_tx unit test of src/bin_format.rs. -/
def txDepositTest : Transaction :=
  ⟨1001, .Deposit, 1001, 0, 1001, 1001, .Success, "test".toList⟩

/-- What decoding the binary encoding of txDepositTest actually returns. -/
def txDepositReturned : Transaction :=
  ⟨1001, .Transfer, 1001, 0, 1001, 1001, .Failure, "test".toList⟩

/-- A complete well-formed text-format record block. -/
def fullBlockText : String :=
  "TX_ID: 1\nTX_TYPE: DEPOSIT\nFROM_USER_ID: 0\nTO_USER_ID: 2\nAMOUNT: 3\nTIMESTAMP: 4\nSTATUS: SUCCESS\nDESCRIPTION: hello"

/-- The transaction the block above decodes to. -/
def txHello : Transaction := ⟨1, .Deposit, 0, 2, 3, 4, .Success, "hello".toList⟩

/-! Theorems checking the specification claims. -/

/-- C1.  The binary codec does not round-trip: encoding the Deposit/Success
transaction of the repository's own test_dump_tx test and decoding the
bytes again yields a Transfer/Failure transaction, because the encoder
writes the declaration discriminant (Unknown = 0, so Deposit = 1,
Success = 1) while the decoder maps byte 0 to Deposit and byte 1 to
Transfer (and byte 1 to Failure for status).  The repository's test
expects the encoded kind byte to be 0, so the encoder side is the bug. -/
theorem c1_bin_roundtrip_alters_enums :
    parse_from_bin (dump_as_bin [txDepositTest]) = .ok [txDepositReturned] ∧
      txDepositReturned ≠ txDepositTest ∧
      (dump_as_bin [txDepositTest]).getD 16 0 = 1 := by
  refine ⟨by rfl, by decide, by rfl⟩

/-- C2.  Decoding maps bytes 0, 1, 2 to Deposit, Transfer, Withdrawal (and
Success, Failure, Pending) and rejects other bytes, as the claim states;
but encoding writes the declaration discriminant computed with the Unknown
variant first, so the kind byte of a Deposit record is 1, not 0, and a
Withdrawal record gets byte 3, which cannot be decoded at all.  The kind
byte of the encoded test transaction sits at offset 8 of the record body. -/
theorem c2_enum_codes_encode_decode_mismatch :
    (read_tx_type [0] = .ok (.Deposit, []) ∧ read_tx_type [1] = .ok (.Transfer, []) ∧
      read_tx_type [2] = .ok (.Withdrawal, []) ∧
      read_tx_type [3] = .error ⟨.invalidData, "Invalid TxType"⟩ ∧
      read_tx_status [0] = .ok (.Success, []) ∧ read_tx_status [1] = .ok (.Failure, []) ∧
      read_tx_status [2] = .ok (.Pending, []) ∧
      read_tx_status [3] = .error ⟨.invalidData, "unexpected TxType"⟩) ∧
    (txTypeCode .Deposit = 1 ∧ txTypeCode .Transfer = 2 ∧ txTypeCode .Withdrawal = 3 ∧
      txStatusCode .Success = 1 ∧ txStatusCode .Failure = 2 ∧ txStatusCode .Pending = 3 ∧
      (dump_tx txDepositTest).getD 8 0 = 1) := by
  exact ⟨⟨rfl, rfl, rfl, rfl, rfl, rfl, rfl, rfl⟩, ⟨rfl, rfl, rfl, rfl, rfl, rfl, rfl⟩⟩

/-- C3 counterexample.  A record block holding only TX_ID out of the eight
required keys is not a decode error at a block boundary: both at a
blank-line separator and at end of input, text decode succeeds with an
empty record list, silently dropping the incomplete block. -/
theorem c3_incomplete_block_not_an_error :
    parse_from_text "TX_ID: 1\n\n".toList = .ok [] ∧
      parse_from_text "TX_ID: 1".toList = .ok [] := ⟨by rfl, by rfl⟩

/-- C3 as amended.  A block that reaches a block boundary with only a
proper subset of the required keys is silently discarded: after the
incomplete block and its blank-line terminator, parsing continues exactly
as if the block had never appeared, and at end of input the incomplete
block contributes nothing; a record is only emitted when all required keys
were seen. -/
theorem c3_incomplete_block_silently_dropped :
    (∀ rest : List (List Char),
        parse_lines ("TX_ID: 1".toList :: ([] : List Char) :: rest) = parse_lines rest) ∧
      parse_lines ["TX_ID: 1".toList] = .ok [] := by
  exact ⟨fun rest => rfl, rfl⟩

/-- Witness for C3 as amended at a concrete remainder of input. -/
theorem c3_incomplete_block_silently_dropped_witness :
    parse_lines ("TX_ID: 1".toList :: ([] : List Char) :: ["TX_ID: 9".toList]) =
        parse_lines ["TX_ID: 9".toList] ∧
      parse_lines ["TX_ID: 1".toList] = .ok [] :=
  ⟨c3_incomplete_block_silently_dropped.1 ["TX_ID: 9".toList],
   c3_incomplete_block_silently_dropped.2⟩

/-- C4 counterexample.  A block containing the unrecognized key FOO in
addition to the eight required keys decodes successfully; the unknown key
is stored and ignored, not rejected with a decode error. -/
theorem c4_unknown_key_accepted :
    parse_from_text (fullBlockText ++ "\nFOO: 1").toList = .ok [txHello] := by rfl

/-- C4 as amended.  A key repeated within the same record block is a
decode error carrying the duplicate field message (here STATUS appearing
twice, the claim's example), but an unrecognized key such as FOO is simply
inserted into the field map and ignored by validation and record
construction rather than being rejected. -/
theorem c4_duplicate_rejected_unknown_ignored :
    parse_from_text (fullBlockText ++ "\nSTATUS: SUCCESS").toList =
        .error (.InvalidFormat "duplicate field STATUS") ∧
      parse_from_text (fullBlockText ++ "\nFOO: 7\n\n" ++ fullBlockText).toList =
        .error (.InvalidFormat "duplicate field TX_ID") ∧
      apply_field [("FOO".toList, "1".toList)] "FOO".toList "2".toList =
        .error (.InvalidFormat "duplicate field FOO") := by
  exact ⟨by rfl, by rfl, by rfl⟩

/-- C5 counterexample.  A binary record whose body carries the invalid
kind code 99 is rejected with the IOError variant (the io::Error made by
read_tx_type is converted by the blanket From impl), not with the
format-violation variant the claim requires. -/
theorem c5_invalid_kind_code_is_io_error :
    parse_from_bin (MAGIC ++ [0, 0, 0, 46] ++ List.replicate 8 0 ++ [99] ++
        List.replicate 37 0) = .error (.IOError "Invalid TxType") := by rfl

/-- C6 counterexample.  End-of-stream reached after some header bytes were
already available is still treated as normal termination: two bytes of a
truncated magic, and a full magic followed by a truncated record_size,
both decode to the empty record list instead of a decode error. -/
theorem c6_truncated_header_is_normal_eof :
    parse_from_bin [0x59, 0x50] = .ok [] ∧
      parse_from_bin (MAGIC ++ [0, 0]) = .ok [] := ⟨by rfl, by rfl⟩

/-- C7 counterexample.  A text line whose value contains a colon does not
parse as one key and one value: splitting yields three parts and decode
fails with the invalid field format error. -/
theorem c7_colon_in_value_rejected :
    parse_from_text "DESCRIPTION: a:b".toList =
      .error (.InvalidFormat "invalid field format") := by rfl

/-- C9 counterexample.  The quoted CSV field containing a comma and a
doubled double-quote decodes to the five characters a comma b quote c,
with no trailing quote character, not to the six-character string the
claim spells out. -/
theorem c9_doubled_quote_field_value :
    parse_csv_line "\"a,b\"\"c\"".toList = .ok ["a,b\"c".toList] ∧
      "a,b\"c".toList ≠ "a,b\"c\"".toList := ⟨by rfl, by decide⟩

/-- C9 as amended.  Inside quotes a doubled double-quote decodes to one
literal quote and commas stay literal, the surrounding quote pair is
stripped, so the field decodes to a comma b quote c; an unterminated
quoted field is rejected with the unclosed-quotes decode error. -/
theorem c9_quote_handling :
    parse_csv_line "\"a,b\"\"c\"".toList = .ok ["a,b\"c".toList] ∧
      parse_csv_line "\"abc".toList =
        .error (.InvalidFormat "unclosed quotes in CSV line") ∧
      parse_csv_line "a,\"b,c\",d".toList =
        .ok ["a".toList, "b,c".toList, "d".toList] := ⟨by rfl, by rfl, by rfl⟩

/-- C5 as amended.  Format failures detected inside a binary record body
are raised as io::Error values and the blanket From conversion returns
them as the IOError variant (invalid status code, invalid UTF-8
description), while the size-accounting checks return the format-violation
variant and a header failure other than clean end-of-stream (a wrong
magic) is also returned as the format-violation variant. -/
theorem c5_error_variant_routing :
    parse_from_bin (MAGIC ++ [0, 0, 0, 46] ++ List.replicate 41 0 ++ [99] ++ [0, 0, 0, 0]) =
        .error (.IOError "unexpected TxType") ∧
      parse_from_bin (MAGIC ++ [0, 0, 0, 47] ++ List.replicate 42 0 ++ [0, 0, 0, 1] ++ [255]) =
        .error (.IOError "Invalid UTF-8") ∧
      parse_from_bin (MAGIC ++ [0, 0, 0, 47] ++ List.replicate 47 0) =
        .error (.InvalidFormat "mailformed record. record size mismatch") ∧
      parse_from_bin ([1, 2, 3, 4] ++ [0, 0, 0, 46]) =
        .error (.InvalidFormat "invalid magic") := by
  exact ⟨by rfl, by rfl, by rfl, by rfl⟩

/-- C6 as amended.  Binary decode terminates normally with the records
collected so far whenever the per-record header read fails with an
end-of-stream error, regardless of how many header bytes had already been
consumed; at the top level this returns the empty list for any input whose
header read ends in end-of-stream. -/
theorem c6_header_eof_terminates_normally :
    ∀ (s : List Nat) (e : IoErr), header_read s = .error e →
      e.kind = .unexpectedEof → parse_from_bin s = .ok [] := by
  intro s e h hk
  unfold parse_from_bin parse_from_bin_loop
  rw [h]
  simp [hk]

/-- Witness for C6 as amended at the one-byte input. -/
theorem c6_header_eof_terminates_normally_witness :
    header_read [0x59] = .error eofErr ∧ eofErr.kind = .unexpectedEof ∧
      parse_from_bin [0x59] = .ok [] :=
  ⟨by rfl, rfl, c6_header_eof_terminates_normally [0x59] eofErr (by rfl) rfl⟩

/-- C7 as amended.  A non-blank text line is split on every colon, not
only the first: unless the trimmed parts number exactly two, decoding
fails with the invalid field format error, so a value containing a colon
is a decode error rather than parsing as one key and one value. -/
theorem c7_line_split_on_every_colon :
    ∀ (line : List Char) (acc : List Transaction) (cur : FieldMap)
      (rest : List (List Char)),
      rustTrim line ≠ [] →
      ((splitCh ':' (rustTrim line)).map rustTrim).length ≠ 2 →
      parse_lines_loop acc cur (line :: rest) =
        .error (.InvalidFormat "invalid field format") := by
  intro line acc cur rest h1 h2
  simp only [parse_lines_loop]
  rw [if_neg h1]
  rcases hp : (splitCh ':' (rustTrim line)).map rustTrim with _ | ⟨a, _ | ⟨b, _ | ⟨c, t⟩⟩⟩
  · rfl
  · rfl
  · exact absurd (by rw [hp]; rfl) h2
  · rfl

/-- Witness for C7 as amended at the line of the claim's example. -/
theorem c7_line_split_on_every_colon_witness :
    rustTrim "DESCRIPTION: a:b".toList ≠ [] ∧
      ((splitCh ':' (rustTrim "DESCRIPTION: a:b".toList)).map rustTrim).length ≠ 2 ∧
      parse_lines_loop [] [] ["DESCRIPTION: a:b".toList] =
        .error (.InvalidFormat "invalid field format") :=
  ⟨by decide, by decide,
    c7_line_split_on_every_colon "DESCRIPTION: a:b".toList [] [] [] (by decide) (by decide)⟩

/-! Helper lemmas about the primitive reads, used by the general theorems. -/

theorem readExact_append (n : Nat) (b r : List Nat) (h : b.length = n) :
    readExact n (b ++ r) = .ok (b, r) := by
  unfold readExact
  rw [if_pos (by rw [List.length_append, h]; omega)]
  rw [List.take_left' h, List.drop_left' h]

theorem read_u64_append (b r : List Nat) (h : b.length = 8) :
    read_u64 (b ++ r) = .ok (beVal b, r) := by
  unfold read_u64
  rw [readExact_append 8 b r h]

theorem read_u32_append (b r : List Nat) (h : b.length = 4) :
    read_u32 (b ++ r) = .ok (beVal b, r) := by
  unfold read_u32
  rw [readExact_append 4 b r h]

theorem read_tx_type_ok (k : Nat) (r : List Nat) (hk : k = 0 ∨ k = 1 ∨ k = 2) :
    ∃ ty, read_tx_type (k :: r) = .ok (ty, r) := by
  rcases hk with h | h | h <;> subst h
  · exact ⟨.Deposit, rfl⟩
  · exact ⟨.Transfer, rfl⟩
  · exact ⟨.Withdrawal, rfl⟩

theorem read_tx_status_ok (st : Nat) (r : List Nat) (hst : st = 0 ∨ st = 1 ∨ st = 2) :
    ∃ sv, read_tx_status (st :: r) = .ok (sv, r) := by
  rcases hst with h | h | h <;> subst h
  · exact ⟨.Success, rfl⟩
  · exact ⟨.Failure, rfl⟩
  · exact ⟨.Pending, rfl⟩

theorem header_read_ok (szb r : List Nat) (h : szb.length = 4) :
    header_read (MAGIC ++ (szb ++ r)) = .ok (beVal szb, r) := by
  simp only [header_read, read_magic, readExact_append 4 MAGIC (szb ++ r) rfl,
    read_u32, readExact_append 4 szb r h, ne_eq, not_true_eq_false, if_false]

/-- C8.  Size accounting of the binary decoder.  First: a record body laid
out as the wire format prescribes (8-byte id, valid kind byte, three
8-byte integers, 8-byte timestamp, valid status byte, 4-byte desc_len)
whose declared record size differs from 46 plus the desc_len value is
rejected with the record-size-mismatch format violation, whatever bytes
follow.  Second: a header declaring a record size below 46 is rejected
with the record-size-too-small format violation before any body byte is
consumed, for every suffix including the empty one. -/
theorem c8_record_size_validation :
    (∀ (idb fb tb ab tsb dlb rest : List Nat) (k st sz : Nat),
        idb.length = 8 → fb.length = 8 → tb.length = 8 → ab.length = 8 →
        tsb.length = 8 → dlb.length = 4 →
        (k = 0 ∨ k = 1 ∨ k = 2) → (st = 0 ∨ st = 1 ∨ st = 2) →
        sz ≠ (46 + beVal dlb) % 2 ^ 32 →
        read_tx (idb ++ [k] ++ fb ++ tb ++ ab ++ tsb ++ [st] ++ dlb ++ rest) sz =
          .error (.InvalidFormat "mailformed record. record size mismatch")) ∧
    (∀ (sz : Nat) (rest : List Nat), sz < 46 →
        parse_from_bin (MAGIC ++ [0, 0, 0, sz] ++ rest) =
          .error (.InvalidFormat "mailformed record. record size too small")) := by
  constructor
  · intro idb fb tb ab tsb dlb rest k st sz h1 h2 h3 h4 h5 h6 hk hst hsz
    have e1 : ∀ r, read_u64 (idb ++ r) = .ok (beVal idb, r) := fun r => read_u64_append idb r h1
    have e2 : ∀ r, read_u64 (fb ++ r) = .ok (beVal fb, r) := fun r => read_u64_append fb r h2
    have e3 : ∀ r, read_u64 (tb ++ r) = .ok (beVal tb, r) := fun r => read_u64_append tb r h3
    have e4 : ∀ r, read_u64 (ab ++ r) = .ok (beVal ab, r) := fun r => read_u64_append ab r h4
    have e5 : ∀ r, read_u64 (tsb ++ r) = .ok (beVal tsb, r) := fun r => read_u64_append tsb r h5
    have e6 : ∀ r, read_u32 (dlb ++ r) = .ok (beVal dlb, r) := fun r => read_u32_append dlb r h6
    obtain ⟨ty, ety⟩ :=
      read_tx_type_ok k (fb ++ (tb ++ (ab ++ (tsb ++ (st :: (dlb ++ rest)))))) hk
    obtain ⟨sv, est⟩ := read_tx_status_ok st (dlb ++ rest) hst
    simp only [read_tx, List.append_assoc, List.singleton_append, List.cons_append,
      List.nil_append, e1, ety, e2, e3, e4, e5, est, e6, MIN_RECORD_SIZE]
    rw [if_pos hsz]
  · intro sz rest h
    have hh : header_read (MAGIC ++ ([0, 0, 0, sz] ++ rest)) = .ok (sz, rest) := by
      rw [header_read_ok [0, 0, 0, sz] rest rfl]
      simp [beVal]
    unfold parse_from_bin parse_from_bin_loop
    rw [List.append_assoc]
    simp only [hh, MIN_RECORD_SIZE]
    rw [if_pos h]

/-- Witness for C8 at a concrete zero-filled record with desc_len 0 and
declared size 47, and a concrete undersized header with no body at all. -/
theorem c8_record_size_validation_witness :
    read_tx (List.replicate 8 0 ++ [0] ++ List.replicate 8 0 ++ List.replicate 8 0 ++
        List.replicate 8 0 ++ List.replicate 8 0 ++ [0] ++ [0, 0, 0, 0] ++ []) 47 =
      .error (.InvalidFormat "mailformed record. record size mismatch") ∧
    parse_from_bin (MAGIC ++ [0, 0, 0, 10] ++ []) =
      .error (.InvalidFormat "mailformed record. record size too small") :=
  ⟨c8_record_size_validation.1 _ _ _ _ _ _ _ 0 0 47 rfl rfl rfl rfl rfl rfl
      (Or.inl rfl) (Or.inl rfl) (by decide),
   c8_record_size_validation.2 10 [] (by decide)⟩

/-! Helper lemmas showing no decode path can produce an Unknown variant. -/

theorem read_tx_type_not_unknown {s r : List Nat} {ty : TxType}
    (h : read_tx_type s = .ok (ty, r)) : ty ≠ TxType.Unknown := by
  match s with
  | [] => exact Except.noConfusion h
  | b :: t =>
    simp only [read_tx_type] at h
    split_ifs at h
    all_goals (injection h with h2; try (cases h2; decide))

theorem read_tx_status_not_unknown {s r : List Nat} {sv : TxStatus}
    (h : read_tx_status s = .ok (sv, r)) : sv ≠ TxStatus.Unknown := by
  match s with
  | [] => exact Except.noConfusion h
  | b :: t =>
    simp only [read_tx_status] at h
    split_ifs at h
    all_goals (injection h with h2; try (cases h2; decide))

theorem txTypeFromStr_not_unknown {s : List Char} {ty : TxType}
    (h : txTypeFromStr s = .ok ty) : ty ≠ TxType.Unknown := by
  unfold txTypeFromStr at h
  split_ifs at h
  all_goals (injection h with h2; try (cases h2; decide))

theorem txStatusFromStr_not_unknown {s : List Char} {sv : TxStatus}
    (h : txStatusFromStr s = .ok sv) : sv ≠ TxStatus.Unknown := by
  unfold txStatusFromStr at h
  split_ifs at h
  all_goals (injection h with h2; try (cases h2; decide))

theorem read_tx_ok_not_unknown {bs : List Nat} {sz : Nat} {tx : Transaction}
    (h : read_tx bs sz = .ok tx) :
    tx.type ≠ TxType.Unknown ∧ tx.status ≠ TxStatus.Unknown := by
  unfold read_tx at h
  repeat' split at h
  all_goals try exact Except.noConfusion h
  cases h
  exact ⟨read_tx_type_not_unknown (by assumption),
    read_tx_status_not_unknown (by assumption)⟩

theorem build_ok_not_unknown {m : FieldMap} {tx : Transaction}
    (h : build m = .ok tx) :
    tx.type ≠ TxType.Unknown ∧ tx.status ≠ TxStatus.Unknown := by
  unfold build at h
  repeat' split at h
  all_goals try exact Except.noConfusion h
  cases h
  exact ⟨txTypeFromStr_not_unknown (by assumption),
    txStatusFromStr_not_unknown (by assumption)⟩

theorem parse_transaction_ok_not_unknown {line : List Char} {tx : Transaction}
    (h : parse_transaction line = .ok tx) :
    tx.type ≠ TxType.Unknown ∧ tx.status ≠ TxStatus.Unknown := by
  unfold parse_transaction at h
  repeat' split at h
  all_goals try exact Except.noConfusion h
  cases h
  exact ⟨txTypeFromStr_not_unknown (by assumption),
    txStatusFromStr_not_unknown (by assumption)⟩

theorem parse_from_bin_loop_not_unknown :
    ∀ (fuel : Nat) (s : List Nat) (acc txs : List Transaction),
      (∀ t ∈ acc, t.type ≠ TxType.Unknown ∧ t.status ≠ TxStatus.Unknown) →
      parse_from_bin_loop fuel acc s = .ok txs →
      ∀ t ∈ txs, t.type ≠ TxType.Unknown ∧ t.status ≠ TxStatus.Unknown := by
  intro fuel
  induction fuel with
  | zero =>
    intro s acc txs hacc h
    unfold parse_from_bin_loop at h
    cases h
    exact hacc
  | succ n ih =>
    intro s acc txs hacc h
    unfold parse_from_bin_loop at h
    split at h
    · split at h
      · cases h; exact hacc
      · exact Except.noConfusion h
    · split at h
      · exact Except.noConfusion h
      · split at h
        · exact Except.noConfusion h
        · split at h
          · exact Except.noConfusion h
          · refine ih _ _ _ ?_ h
            intro t ht
            rcases List.mem_append.mp ht with h1 | h2
            · exact hacc t h1
            · have : t = _ := List.mem_singleton.mp h2
              subst this
              exact read_tx_ok_not_unknown (by assumption)

theorem parse_lines_loop_not_unknown :
    ∀ (lines : List (List Char)) (acc : List Transaction) (cur : FieldMap)
      (txs : List Transaction),
      (∀ t ∈ acc, t.type ≠ TxType.Unknown ∧ t.status ≠ TxStatus.Unknown) →
      parse_lines_loop acc cur lines = .ok txs →
      ∀ t ∈ txs, t.type ≠ TxType.Unknown ∧ t.status ≠ TxStatus.Unknown := by
  intro lines
  induction lines with
  | nil =>
    intro acc cur txs hacc h
    unfold parse_lines_loop at h
    split at h
    · split at h
      · exact Except.noConfusion h
      · cases h
        intro t ht
        rcases List.mem_append.mp ht with h1 | h2
        · exact hacc t h1
        · have : t = _ := List.mem_singleton.mp h2
          subst this
          exact build_ok_not_unknown (by assumption)
    · cases h; exact hacc
  | cons line rest ih =>
    intro acc cur txs hacc h
    simp only [parse_lines_loop] at h
    split at h
    · split at h
      · exact ih _ _ _ hacc h
      · split at h
        · exact Except.noConfusion h
        · refine ih _ _ _ ?_ h
          intro t ht
          rcases List.mem_append.mp ht with h1 | h2
          · exact hacc t h1
          · have : t = _ := List.mem_singleton.mp h2
            subst this
            exact build_ok_not_unknown (by assumption)
    · split at h
      · split at h
        · exact Except.noConfusion h
        · exact ih _ _ _ hacc h
      · exact Except.noConfusion h

theorem parse_transactions_loop_not_unknown :
    ∀ (lines : List (List Char)) (acc txs : List Transaction),
      (∀ t ∈ acc, t.type ≠ TxType.Unknown ∧ t.status ≠ TxStatus.Unknown) →
      parse_transactions_loop acc lines = .ok txs →
      ∀ t ∈ txs, t.type ≠ TxType.Unknown ∧ t.status ≠ TxStatus.Unknown := by
  intro lines
  induction lines with
  | nil =>
    intro acc txs hacc h
    unfold parse_transactions_loop at h
    cases h
    exact hacc
  | cons line rest ih =>
    intro acc txs hacc h
    simp only [parse_transactions_loop] at h
    split at h
    · exact ih _ _ hacc h
    · split at h
      · exact Except.noConfusion h
      · refine ih _ _ ?_ h
        intro t ht
        rcases List.mem_append.mp ht with h1 | h2
        · exact hacc t h1
        · have : t = _ := List.mem_singleton.mp h2
          subst this
          exact parse_transaction_ok_not_unknown (by assumption)

/-- C10.  No decode path of any of the three codecs can emit a transaction
whose kind or status is the default Unknown variant: every accepted input
yields only Deposit, Transfer or Withdrawal kinds and Success, Failure or
Pending statuses, because each decoder fails on an unrecognized on-wire
code or name instead of falling back to the default. -/
theorem c10_decoded_enums_never_unknown :
    (∀ (s : List Nat) (txs : List Transaction), parse_from_bin s = .ok txs →
        ∀ tx ∈ txs, tx.type ≠ TxType.Unknown ∧ tx.status ≠ TxStatus.Unknown) ∧
    (∀ (s : List Char) (txs : List Transaction), parse_from_csv s = .ok txs →
        ∀ tx ∈ txs, tx.type ≠ TxType.Unknown ∧ tx.status ≠ TxStatus.Unknown) ∧
    (∀ (s : List Char) (txs : List Transaction), parse_from_text s = .ok txs →
        ∀ tx ∈ txs, tx.type ≠ TxType.Unknown ∧ tx.status ≠ TxStatus.Unknown) := by
  refine ⟨?_, ?_, ?_⟩
  · intro s txs h
    exact parse_from_bin_loop_not_unknown _ _ _ _ (by intro t ht; cases ht) h
  · intro s txs h
    unfold parse_from_csv at h
    split at h
    · exact Except.noConfusion h
    · split at h
      · exact parse_transactions_loop_not_unknown _ _ _ (by intro t ht; cases ht) h
      · exact Except.noConfusion h
  · intro s txs h
    exact parse_lines_loop_not_unknown _ _ _ _ (by intro t ht; cases ht) h

/-- Witness for C10 at one concrete accepted input per codec: the binary
record of the repository's parse test, the CSV line of the specification's
concrete scenario, and a complete text block. -/
theorem c10_decoded_enums_never_unknown_witness :
    (txDepositTest.type ≠ TxType.Unknown ∧ txDepositTest.status ≠ TxStatus.Unknown) ∧
    ((⟨1001, .Deposit, 0, 501, 50000, 1672531200000, .Success,
        "Initial account funding".toList⟩ : Transaction).type ≠ TxType.Unknown ∧
      (⟨1001, .Deposit, 0, 501, 50000, 1672531200000, .Success,
        "Initial account funding".toList⟩ : Transaction).status ≠ TxStatus.Unknown) ∧
    (txHello.type ≠ TxType.Unknown ∧ txHello.status ≠ TxStatus.Unknown) :=
  ⟨c10_decoded_enums_never_unknown.1
      ([0x59, 0x50, 0x42, 0x4e, 0x00, 0x00, 0x00, 0x32] ++
        [0x00, 0x00, 0x00, 0x00, 0x00, 0x00, 0x03, 0xe9, 0x00,
         0x00, 0x00, 0x00, 0x00, 0x00, 0x00, 0x03, 0xe9,
         0x00, 0x00, 0x00, 0x00, 0x00, 0x00, 0x00, 0x00,
         0x00, 0x00, 0x00, 0x00, 0x00, 0x00, 0x03, 0xe9,
         0x00, 0x00, 0x00, 0x00, 0x00, 0x00, 0x03, 0xe9, 0x00,
         0x00, 0x00, 0x00, 0x04, 0x74, 0x65, 0x73, 0x74])
      [txDepositTest] (by rfl) txDepositTest (by simp),
   c10_decoded_enums_never_unknown.2.1
      ("TX_ID,TX_TYPE,FROM_USER_ID,TO_USER_ID,AMOUNT,TIMESTAMP,STATUS,DESCRIPTION\n1001,DEPOSIT,0,501,50000,1672531200000,SUCCESS,\"Initial account funding\"").toList
      [⟨1001, .Deposit, 0, 501, 50000, 1672531200000, .Success,
        "Initial account funding".toList⟩] (by rfl) _ (by simp),
   c10_decoded_enums_never_unknown.2.2 fullBlockText.toList [txHello] (by rfl)
      txHello (by simp)⟩

end YPBank
